import Mathlib

/-!
Verification of the ShieldAuth embedding service (`src/embedding-service/app.py`).

The service exposes two HTTP handlers: `GET /health` and `POST /embed`.  The
only algorithmic core is `_pad_or_trim`, which adjusts a vector to a target
dimension by truncation or zero padding.  We embed the Python code shallowly:

* Python `list[float]` becomes `List α` for an arbitrary type `α` with a zero
  element — `_pad_or_trim` never computes with the floats, it only moves them,
  so every theorem below holds for any choice of element type, in particular
  for IEEE floats.
* Python `int` (arbitrary precision, signed) becomes `Int`; `values[:dim]`
  is modelled with genuine Python slice semantics, including negative `dim`.
* Python `str` becomes `List Char` (a Python string is a sequence of code
  points, and `text[:8000]` slices by code point).
* The provider call `model.encode(text)` followed by the `tolist()` conversion
  is the one fallible step inside the `try` block of `embed`; it is modelled
  as an explicit parameter `encode : List Char → Except String (List α)`,
  where `Except.error msg` stands for a raised exception with message `msg`.
* `raise HTTPException(status_code=500, detail=...)` becomes an
  `Except.error (500, detail)` result of the handler.
-/

namespace ShieldAuth

/-- Python slice `xs[:d]` for an arbitrary (possibly negative) integer `d`:
for `0 ≤ d` it keeps the first `d` elements (clamped at the length); for
`d < 0` the stop index counts from the end, keeping `max 0 (len + d)`
elements (`Nat` subtraction performs the clamping). -/
def pySliceTo {α : Type} (xs : List α) (d : Int) : List α :=
  if 0 ≤ d then xs.take d.toNat else xs.take (xs.length - (-d).toNat)

/-- Embeds `_pad_or_trim(values, dim)` from `app.py` (lines 45–51):

    if len(values) == dim: return values
    if len(values) > dim:  return values[:dim]
    return values + [0.0] * (dim - len(values))

`[0.0] * n` is `List.replicate n.toNat 0` (in the reached branch
`dim - len(values)` is positive, and Python's list repetition with a
non-positive count would give `[]`, matching `Int.toNat`). -/
def pad_or_trim {α : Type} [Zero α] (values : List α) (dim : Int) : List α :=
  if (values.length : Int) = dim then values
  else if (values.length : Int) > dim then pySliceTo values dim
  else values ++ List.replicate (dim - (values.length : Int)).toNat (0 : α)

/-- Response model of `POST /embed` (`EmbedResponse` in `app.py`). -/
structure EmbedResponse (α : Type) where
  embedding : List α
  dim : Nat
deriving DecidableEq, Repr

/-- The process-wide configuration read at startup: `MODEL_NAME`,
`TARGET_DIM = int(os.getenv("EMBEDDING_TARGET_DIM", "384"))`, and the loaded
model's native dimension `model.get_sentence_embedding_dimension()`. -/
structure Config where
  MODEL_NAME : String
  TARGET_DIM : Int
  model_dim : Nat
deriving DecidableEq, Repr

/-- The JSON object returned by `GET /health` (`app.py` lines 54–61). -/
structure HealthResponse where
  status : String
  model : String
  target_dim : Int
  model_dim : Nat
deriving DecidableEq, Repr

/-- Embeds the `health` handler: a pure, total function of the static
configuration — it performs no upstream call and cannot fail, so the
framework always answers HTTP 200 with this body. -/
def health (cfg : Config) : HealthResponse :=
  { status := "ok"
    model := cfg.MODEL_NAME
    target_dim := cfg.TARGET_DIM
    model_dim := cfg.model_dim }

/-- The truncation `text = body.text[:8000]` in `embed` (`app.py` line 66):
a Python string slice `[:8000]` keeps the first 8000 code points. -/
def truncate8000 (text : List Char) : List Char :=
  text.take 8000

/-- Embeds the `embed` handler (`app.py` lines 64–83).  The body of the
`try` block: truncate the text to 8000 characters, run the provider
(`model.encode` plus the list conversion, the only step that can raise),
pad or trim the raw vector to `TARGET_DIM`, and answer
`{"embedding": adjusted, "dim": len(embedding_list)}`.  Any exception is
caught and re-raised as `HTTPException(500, "Embedding failed: " + str(e))`,
modelled as an `Except.error` carrying the status code and detail. -/
def embed {α : Type} [Zero α] (cfg : Config)
    (encode : List Char → Except String (List α)) (text : List Char) :
    Except (Nat × String) (EmbedResponse α) :=
  match encode (truncate8000 text) with
  | Except.ok raw =>
      Except.ok { embedding := pad_or_trim raw cfg.TARGET_DIM, dim := raw.length }
  | Except.error e => Except.error (500, "Embedding failed: " ++ e)

/-! ### Core lemmas about `pad_or_trim` -/

/-- Normal form for non-negative targets: `pad_or_trim v d` is the
`d`-prefix of `v` followed by enough zeros to reach length `d`. -/
theorem pad_or_trim_eq_take_append {α : Type} [Zero α] (v : List α) (d : Int)
    (hd : 0 ≤ d) :
    pad_or_trim v d = v.take d.toNat ++ List.replicate (d.toNat - v.length) (0 : α) := by
  unfold pad_or_trim pySliceTo
  split
  · rename_i h
    have hlen : v.length = d.toNat := by omega
    simp [hlen]
  · split
    · rename_i h1 h2
      have hlt : d.toNat < v.length := by omega
      have hz : d.toNat - v.length = 0 := by omega
      simp [hd, hz]
    · rename_i h1 h2
      have hle : v.length ≤ d.toNat := by omega
      have hst : (d - (v.length : Int)).toNat = d.toNat - v.length := by omega
      simp [List.take_of_length_le hle, hst]

/-- For a non-negative target `d`, the result of `pad_or_trim` has length
exactly `d`. -/
theorem pad_or_trim_length {α : Type} [Zero α] (v : List α) (d : Int)
    (hd : 0 ≤ d) : ((pad_or_trim v d).length : Int) = d := by
  rw [pad_or_trim_eq_take_append v d hd]
  simp only [List.length_append, List.length_take, List.length_replicate]
  omega

/-- Composition law at the heart of idempotence: normalizing to `d2` and then
to a smaller (or equal) non-negative `d1` is the same as normalizing once. -/
theorem pad_or_trim_comp {α : Type} [Zero α] (v : List α) (d1 d2 : Int)
    (h1 : 0 ≤ d1) (h12 : d1 ≤ d2) :
    pad_or_trim (pad_or_trim v d2) d1 = pad_or_trim v d1 := by
  have h2 : 0 ≤ d2 := le_trans h1 h12
  rw [pad_or_trim_eq_take_append v d2 h2, pad_or_trim_eq_take_append v d1 h1,
    pad_or_trim_eq_take_append _ d1 h1]
  rw [List.take_append_eq_append_take, List.take_take, List.take_replicate, List.append_assoc,
    List.append_replicate_replicate]
  have hmin : min d1.toNat d2.toNat = d1.toNat := by omega
  rw [hmin]
  simp only [List.length_append, List.length_take, List.length_replicate]
  congr 1
  congr 1
  omega

/-! ### Claims -/

/-- C1 (counterexample). The claim quantifies over *every integer* target
dimension `d`, but `TARGET_DIM` is a Python `int` and for a negative `d`
the truncation branch takes the slice `values[:d]`, which counts from the
end: `_pad_or_trim([0.0], -1)` returns `[]`, whose length `0` is not `-1`.
No result can have a negative length, so the claim fails for `d < 0`. -/
theorem pad_or_trim_neg_dim_cex :
    pad_or_trim ([0] : List ℚ) (-1) = [] ∧
    ((pad_or_trim ([0] : List ℚ) (-1)).length : Int) ≠ -1 := by
  decide

/-- C1 (amended): for every vector `v` and every *non-negative* integer
target dimension `d`, `_pad_or_trim(v, d)` has length exactly `d`. -/
theorem pad_or_trim_length_eq_target {α : Type} [Zero α] (v : List α) (d : Int)
    (hd : 0 ≤ d) : ((pad_or_trim v d).length : Int) = d :=
  pad_or_trim_length v d hd

/-- C1 (witness): the amended theorem at `v = [1.0, 2.0, 3.0]`, `d = 5`. -/
theorem pad_or_trim_length_eq_target_witness :
    (0 : Int) ≤ 5 ∧ ((pad_or_trim ([1, 2, 3] : List ℚ) 5).length : Int) = 5 :=
  ⟨by decide, pad_or_trim_length_eq_target ([1, 2, 3] : List ℚ) 5 (by decide)⟩

/-- C3 (counterexample). With `v = [1.0, 2.0]` and `d = -1` the hypothesis
`len(v) > d` holds, yet `_pad_or_trim(v, -1)` is `[1.0]` (Python's
`v[:-1]`), which is not "the first `d` elements of `v`": its length is `1`,
not `d = -1`, and it differs from any length-clamped prefix reading of a
`-1`-prefix (which would be `[]`). -/
theorem pad_or_trim_prefix_cex :
    (([1, 2] : List ℚ).length : Int) > -1 ∧
    pad_or_trim ([1, 2] : List ℚ) (-1) = [1] ∧
    ((pad_or_trim ([1, 2] : List ℚ) (-1)).length : Int) ≠ -1 ∧
    pad_or_trim ([1, 2] : List ℚ) (-1) ≠ List.take (Int.toNat (-1)) ([1, 2] : List ℚ) := by
  decide

/-- C3 (amended): for every vector `v` and every *non-negative* integer `d`
with `len(v) > d`, `_pad_or_trim(v, d)` is the exact prefix `v[0:d]`, the
first `d` elements of `v` in original order. -/
theorem pad_or_trim_truncates {α : Type} [Zero α] (v : List α) (d : Int)
    (hd : 0 ≤ d) (hlt : d < (v.length : Int)) :
    pad_or_trim v d = v.take d.toNat := by
  rw [pad_or_trim_eq_take_append v d hd]
  have hz : d.toNat - v.length = 0 := by omega
  simp [hz]

/-- C3 (witness): the scenario `normalize([1.0, 2.0, 3.0, 4.0], 2) =
[1.0, 2.0]`. -/
theorem pad_or_trim_truncates_witness :
    pad_or_trim ([1, 2, 3, 4] : List ℚ) 2 = [1, 2] := by
  rw [pad_or_trim_truncates ([1, 2, 3, 4] : List ℚ) 2 (by decide) (by decide)]
  decide

/-- C4: for every vector `v` and integer `d` with `len(v) < d`,
`_pad_or_trim(v, d)` is `v` followed by exactly `d - len(v)` zeros, the
original elements unchanged and in order.  (Here `len(v) < d` forces
`0 < d`, so `d.toNat - len(v)` is exactly the integer `d - len(v)`, which
the second conjunct records.) -/
theorem pad_or_trim_pads_zeros {α : Type} [Zero α] (v : List α) (d : Int)
    (h : (v.length : Int) < d) :
    pad_or_trim v d = v ++ List.replicate (d.toNat - v.length) (0 : α) ∧
    ((d.toNat - v.length : Nat) : Int) = d - (v.length : Int) := by
  have hd : 0 ≤ d := by omega
  constructor
  · rw [pad_or_trim_eq_take_append v d hd]
    have hle : v.length ≤ d.toNat := by omega
    rw [List.take_of_length_le hle]
  · omega

/-- C4 (witness): the scenario `normalize([1.0, 2.0, 3.0], 5) =
[1.0, 2.0, 3.0, 0.0, 0.0]`. -/
theorem pad_or_trim_pads_zeros_witness :
    (([1, 2, 3] : List ℚ).length : Int) < 5 ∧
    pad_or_trim ([1, 2, 3] : List ℚ) 5 = [1, 2, 3, 0, 0] := by
  refine ⟨by decide, ?_⟩
  rw [(pad_or_trim_pads_zeros ([1, 2, 3] : List ℚ) 5 (by decide)).1]
  decide

/-- C5: for every vector `v` and integer `d` with `len(v) == d`,
`_pad_or_trim(v, d)` returns `v` unchanged. -/
theorem pad_or_trim_identity {α : Type} [Zero α] (v : List α) (d : Int)
    (h : (v.length : Int) = d) : pad_or_trim v d = v := by
  unfold pad_or_trim
  simp [h]

/-- C5 (witness): identity at `v = [1.0, 2.0]`, `d = 2`. -/
theorem pad_or_trim_identity_witness :
    (([1, 2] : List ℚ).length : Int) = 2 ∧ pad_or_trim ([1, 2] : List ℚ) 2 = [1, 2] :=
  ⟨by decide, pad_or_trim_identity ([1, 2] : List ℚ) 2 (by decide)⟩

/-- C6 (counterexample). Idempotence fails for a negative target: with
`v = [1.0, 2.0]` and `d = -1`, one application gives `[1.0]` (Python
`v[:-1]`), and a second application gives `[]`, so
`_pad_or_trim(_pad_or_trim(v, d), d) ≠ _pad_or_trim(v, d)`. -/
theorem pad_or_trim_idem_cex :
    pad_or_trim (pad_or_trim ([1, 2] : List ℚ) (-1)) (-1) ≠
      pad_or_trim ([1, 2] : List ℚ) (-1) := by
  decide

/-- C6 (amended): `_pad_or_trim` is deterministic — it is a pure function
of its two inputs, so equal inputs give equal outputs — and it is
idempotent for every *non-negative* target dimension `d`. -/
theorem pad_or_trim_deterministic_idem {α : Type} [Zero α] (v : List α) (d : Int) :
    (∀ (w : List α) (e : Int), w = v → e = d → pad_or_trim w e = pad_or_trim v d) ∧
    (0 ≤ d → pad_or_trim (pad_or_trim v d) d = pad_or_trim v d) := by
  refine ⟨fun w e hw he => by rw [hw, he], fun hd => ?_⟩
  exact pad_or_trim_comp v d d hd le_rfl

/-- C6 (witness): idempotence at `v = [1.0, 2.0]`, `d = 3`. -/
theorem pad_or_trim_deterministic_idem_witness :
    pad_or_trim (pad_or_trim ([1, 2] : List ℚ) 3) 3 = pad_or_trim ([1, 2] : List ℚ) 3 :=
  (pad_or_trim_deterministic_idem ([1, 2] : List ℚ) 3).2 (by decide)

/-- C10: the implicit composition law: for `0 ≤ d1 ≤ d2`, normalizing to
`d2` and then to `d1` equals normalizing directly to `d1`. -/
theorem pad_or_trim_compose_shrink {α : Type} [Zero α] (v : List α) (d1 d2 : Int)
    (h1 : 0 ≤ d1) (h12 : d1 ≤ d2) :
    pad_or_trim (pad_or_trim v d2) d1 = pad_or_trim v d1 :=
  pad_or_trim_comp v d1 d2 h1 h12

/-- C10 (witness): the composition law at `v = [1.0, 2.0, 3.0]`,
`d2 = 5`, `d1 = 2` (pad to 5, then trim to 2, versus trim to 2 directly). -/
theorem pad_or_trim_compose_shrink_witness :
    (0 : Int) ≤ 2 ∧ (2 : Int) ≤ 5 ∧
    pad_or_trim (pad_or_trim ([1, 2, 3] : List ℚ) 5) 2 = pad_or_trim ([1, 2, 3] : List ℚ) 2 :=
  ⟨by decide, by decide, pad_or_trim_compose_shrink ([1, 2, 3] : List ℚ) 2 5 (by decide) (by decide)⟩

/-- C2 (counterexample). The invariant `len(embedding) == TARGET_DIM` holds
only for a non-negative configured target.  `TARGET_DIM` is parsed with
`int(...)` and is never validated, so a configuration with
`EMBEDDING_TARGET_DIM = -1` is possible; a request whose raw vector is
`[1.0, 2.0]` then succeeds with embedding `[1.0]` of length `1 ≠ -1`. -/
theorem embed_target_dim_cex :
    embed ⟨"m", -1, 2⟩ (fun _ => Except.ok [(1 : ℚ), 2]) [] = Except.ok ⟨[(1 : ℚ)], 2⟩ ∧
    (([(1 : ℚ)].length : Int) ≠ (Config.mk "m" (-1) 2).TARGET_DIM) := by
  exact ⟨rfl, by decide⟩

/-- C2 (amended): provided the configured `TARGET_DIM` is non-negative (as
in any real configuration; the default is 384), every successful
`embed` response has `len(embedding) = TARGET_DIM`, and its `dim` field is
the length of the raw provider vector before the dimension adjustment. -/
theorem embed_response_invariant {α : Type} [Zero α] (cfg : Config)
    (encode : List Char → Except String (List α)) (text : List Char)
    (resp : EmbedResponse α) (hdim : 0 ≤ cfg.TARGET_DIM)
    (hok : embed cfg encode text = Except.ok resp) :
    ((resp.embedding.length : Int) = cfg.TARGET_DIM) ∧
    ∃ raw, encode (truncate8000 text) = Except.ok raw ∧
      resp.dim = raw.length ∧ resp.embedding = pad_or_trim raw cfg.TARGET_DIM := by
  unfold embed at hok
  cases henc : encode (truncate8000 text) with
  | ok raw =>
    rw [henc] at hok
    cases hok
    exact ⟨pad_or_trim_length raw cfg.TARGET_DIM hdim, raw, rfl, rfl, rfl⟩
  | error e =>
    rw [henc] at hok
    cases hok

/-- C2 (witness): the amended theorem at `TARGET_DIM = 3` with a raw
vector of length 5: the response is `⟨[1.0, 2.0, 3.0], 5⟩`. -/
theorem embed_response_invariant_witness :
    (([(1 : ℚ), 2, 3].length : Int) = (Config.mk "m" 3 1).TARGET_DIM) ∧
    ∃ raw, (fun _ => (Except.ok [(1 : ℚ), 2, 3, 4, 5] : Except String (List ℚ)))
        (truncate8000 []) = Except.ok raw ∧
      (5 : Nat) = raw.length ∧ [(1 : ℚ), 2, 3] = pad_or_trim raw (Config.mk "m" 3 1).TARGET_DIM := by
  exact embed_response_invariant ⟨"m", 3, 1⟩
    (fun _ => (Except.ok [(1 : ℚ), 2, 3, 4, 5] : Except String (List ℚ))) []
    ⟨[(1 : ℚ), 2, 3], 5⟩ (by decide) rfl

/-- C7 (counterexample). The error-handling half of the claim holds
unconditionally, but "fully succeeds with a correctly-sized vector" fails
for an (unvalidated) negative configured target: with `TARGET_DIM = -2` and
raw vector `[1.0, 2.0, 3.0]`, `embed` fully succeeds with the vector
`[1.0]` (Python `v[:-2]`), whose length `1` is not the configured `-2` —
no size can be "correct" there. -/
theorem embed_success_or_error_cex :
    embed ⟨"m", -2, 3⟩ (fun _ => Except.ok [(1 : ℚ), 2, 3]) ['a'] =
      Except.ok ⟨[(1 : ℚ)], 3⟩ ∧
    (([(1 : ℚ)].length : Int) ≠ (Config.mk "m" (-2) 3).TARGET_DIM) := by
  exact ⟨rfl, by decide⟩

/-- C7 (amended): `embed` is total on *every* request, under *every*
configuration: either the provider raises, and `embed` answers the
structured error `(500, "Embedding failed: " ++ msg)` carrying the
diagnostic message, with no partial result; or the provider succeeds, and
`embed` answers a full response — whose embedding has length exactly
`TARGET_DIM` whenever the configured target is non-negative.  The
error-propagation half holds unconditionally; only "correctly sized" needs
`0 ≤ TARGET_DIM`.  (In the shallow embedding `embed` is a total function
into `Except`, so no request can crash the process.) -/
theorem embed_success_or_error {α : Type} [Zero α] (cfg : Config)
    (encode : List Char → Except String (List α)) (text : List Char) :
    (∃ msg, encode (truncate8000 text) = Except.error msg ∧
       embed cfg encode text = Except.error (500, "Embedding failed: " ++ msg)) ∨
    (∃ resp, embed cfg encode text = Except.ok resp ∧
       (0 ≤ cfg.TARGET_DIM → ((resp.embedding.length : Int) = cfg.TARGET_DIM))) := by
  unfold embed
  cases henc : encode (truncate8000 text) with
  | ok raw =>
    exact Or.inr ⟨⟨pad_or_trim raw cfg.TARGET_DIM, raw.length⟩, rfl,
      fun hdim => pad_or_trim_length raw cfg.TARGET_DIM hdim⟩
  | error e => exact Or.inl ⟨e, rfl, rfl⟩

/-- C7 (witness): the amended theorem at a provider that raises `"boom"`,
under a configuration with a *negative* target `TARGET_DIM = -7`: the
structured 500 error is produced regardless of the configuration. -/
theorem embed_success_or_error_witness :
    (∃ msg, (fun _ => (Except.error "boom" : Except String (List ℚ)))
        (truncate8000 ['a']) = Except.error msg ∧
       embed ⟨"m", -7, 3⟩ (fun _ => (Except.error "boom" : Except String (List ℚ))) ['a'] =
         Except.error (500, "Embedding failed: " ++ msg)) ∨
    (∃ resp, embed ⟨"m", -7, 3⟩
        (fun _ => (Except.error "boom" : Except String (List ℚ))) ['a'] = Except.ok resp ∧
       (0 ≤ (Config.mk "m" (-7) 3).TARGET_DIM →
         ((resp.embedding.length : Int) = (Config.mk "m" (-7) 3).TARGET_DIM))) := by
  exact embed_success_or_error ⟨"m", -7, 3⟩
    (fun _ => (Except.error "boom" : Except String (List ℚ))) ['a']

/-- C8: `embed` truncates the request text to at most 8000 characters
before invoking the model, silently (truncation itself never raises, and
`embed`'s outcome on the original text is exactly its outcome on the
truncated text); texts at or under the cap pass through unchanged; and on
success the returned `dim` is the raw embedding vector's length, not the
input text's length. -/
theorem embed_truncates_text {α : Type} [Zero α] (cfg : Config)
    (encode : List Char → Except String (List α)) (text : List Char) :
    (truncate8000 text).length ≤ 8000 ∧
    (text.length ≤ 8000 → truncate8000 text = text) ∧
    embed cfg encode text = embed cfg encode (truncate8000 text) ∧
    (∀ raw, encode (truncate8000 text) = Except.ok raw →
      embed cfg encode text =
        Except.ok { embedding := pad_or_trim raw cfg.TARGET_DIM, dim := raw.length }) := by
  refine ⟨?_, ?_, ?_, ?_⟩
  · simp [truncate8000]
  · intro hle
    exact List.take_of_length_le hle
  · unfold embed
    have hidem : truncate8000 (truncate8000 text) = truncate8000 text := by
      simp [truncate8000, List.take_take]
    rw [hidem]
  · intro raw henc
    unfold embed
    rw [henc]

/-- C8 (witness): a 2-character text below the cap with a provider
returning a raw vector of length 3 and `TARGET_DIM = 2`: the response's
`dim` is 3 (the raw vector length, not the text length 2), and the
embedding is the raw vector trimmed to 2 entries. -/
theorem embed_truncates_text_witness :
    embed ⟨"m", 2, 1⟩ (fun _ => (Except.ok [(7 : ℚ), 8, 9] : Except String (List ℚ)))
      ['h', 'i'] = Except.ok ⟨[(7 : ℚ), 8], 3⟩ := by
  rw [(embed_truncates_text ⟨"m", 2, 1⟩
    (fun _ => (Except.ok [(7 : ℚ), 8, 9] : Except String (List ℚ))) ['h', 'i']).2.2.2
    [(7 : ℚ), 8, 9] rfl]
  rfl

/-- C9: `health` is a pure, total function of the static configuration: it
always succeeds (so the framework answers HTTP 200), reports
`status = "ok"` and `target_dim` equal to the active configuration's
`TARGET_DIM`, plus the model information (`model` name and native
`model_dim`), and it makes no upstream embedding call (its only input is
the configuration — no provider is involved in its type). -/
theorem health_reports_config (cfg : Config) :
    health cfg =
      { status := "ok", model := cfg.MODEL_NAME, target_dim := cfg.TARGET_DIM,
        model_dim := cfg.model_dim } ∧
    (health cfg).status = "ok" ∧
    (health cfg).target_dim = cfg.TARGET_DIM ∧
    (health cfg).model = cfg.MODEL_NAME ∧
    (health cfg).model_dim = cfg.model_dim :=
  ⟨rfl, rfl, rfl, rfl, rfl⟩

end ShieldAuth
